import Mathlib

/-!
Verification of the AntAlmanac excerpt: the academic term table
(`packages/types/src/terms.ts`) and the calendar toolbar
(`apps/antalmanac/src/components/Calendar/CalendarToolbar.tsx`).

Pure data and handlers are embedded as Lean definitions; the handlers'
side effects (analytics logging and store dispatches) are embedded as
explicit effect traces, and component-local state (the popover anchor,
the store's listener registry) as explicit state values.
-/

/-- Term record from `terms.ts`: a `shortName`, a `longName` and an optional
`startDate` triple `[year, monthIndex, day]` (months 0-indexed). -/
structure Term where
  shortName : String
  longName : String
  startDate : Option (Nat × Nat × Nat) := none
deriving DecidableEq, Repr

/-- The compiled term table `termsArray` from `terms.ts`, entry for entry. -/
def termsArray : List Term := [
  ⟨"2023 Fall", "2023 Fall Quarter", some (2023, 8, 28)⟩,
  ⟨"2023 Summer2", "2023 Summer Session 2", some (2023, 7, 7)⟩,
  ⟨"2023 Summer10wk", "2023 10-wk Summer", some (2023, 5, 26)⟩,
  ⟨"2023 Summer1", "2023 Summer Session 1", some (2023, 5, 26)⟩,
  ⟨"2023 Spring", "2023 Spring Quarter", some (2023, 3, 3)⟩,
  ⟨"2023 Winter", "2023 Winter Quarter", some (2023, 0, 9)⟩,
  ⟨"2022 Fall", "2022 Fall Quarter", some (2022, 8, 22)⟩,
  ⟨"2022 Summer2", "2022 Summer Session 2", some (2022, 7, 1)⟩,
  ⟨"2022 Summer10wk", "2022 10-wk Summer", some (2022, 5, 20)⟩,
  ⟨"2022 Summer1", "2022 Summer Session 1", some (2022, 5, 20)⟩,
  ⟨"2022 Spring", "2022 Spring Quarter", some (2022, 2, 28)⟩,
  ⟨"2022 Winter", "2022 Winter Quarter", some (2022, 0, 3)⟩,
  ⟨"2021 Fall", "2021 Fall Quarter", some (2021, 8, 23)⟩,
  ⟨"2021 Summer2", "2021 Summer Session 2", none⟩,
  ⟨"2021 Summer10wk", "2021 10-wk Summer", none⟩,
  ⟨"2021 Summer1", "2021 Summer Session 1", none⟩,
  ⟨"2021 Spring", "2021 Spring Quarter", some (2021, 2, 29)⟩,
  ⟨"2021 Winter", "2021 Winter Quarter", some (2021, 0, 4)⟩,
  ⟨"2020 Fall", "2020 Fall Quarter", some (2020, 9, 1)⟩,
  ⟨"2020 Summer2", "2020 Summer Session 2", none⟩,
  ⟨"2020 Summer10wk", "2020 10-wk Summer", none⟩,
  ⟨"2020 Summer1", "2020 Summer Session 1", none⟩,
  ⟨"2020 Spring", "2020 Spring Quarter", some (2020, 2, 30)⟩,
  ⟨"2020 Winter", "2020 Winter Quarter", some (2020, 0, 6)⟩,
  ⟨"2019 Fall", "2019 Fall Quarter", some (2019, 8, 26)⟩,
  ⟨"2019 Summer2", "2019 Summer Session 2", none⟩,
  ⟨"2019 Summer10wk", "2019 10-wk Summer", none⟩,
  ⟨"2019 Summer1", "2019 Summer Session 1", none⟩,
  ⟨"2019 Spring", "2019 Spring Quarter", none⟩,
  ⟨"2019 Winter", "2019 Winter Quarter", none⟩,
  ⟨"2018 Fall", "2018 Fall Quarter", none⟩,
  ⟨"2018 Summer2", "2018 Summer Session 2", none⟩,
  ⟨"2018 Summer10wk", "2018 10-wk Summer", none⟩,
  ⟨"2018 Summer1", "2018 Summer Session 1", none⟩,
  ⟨"2018 Spring", "2018 Spring Quarter", none⟩,
  ⟨"2018 Winter", "2018 Winter Quarter", none⟩,
  ⟨"2017 Fall", "2017 Fall Quarter", none⟩,
  ⟨"2017 Summer2", "2017 Summer Session 2", none⟩,
  ⟨"2017 Summer10wk", "2017 10-wk Summer", none⟩,
  ⟨"2017 Summer1", "2017 Summer Session 1", none⟩,
  ⟨"2017 Spring", "2017 Spring Quarter", none⟩,
  ⟨"2017 Winter", "2017 Winter Quarter", none⟩,
  ⟨"2016 Fall", "2016 Fall Quarter", none⟩,
  ⟨"2016 Summer2", "2016 Summer Session 2", none⟩,
  ⟨"2016 Summer10wk", "2016 10-wk Summer", none⟩,
  ⟨"2016 Summer1", "2016 Summer Session 1", none⟩,
  ⟨"2016 Spring", "2016 Spring Quarter", none⟩,
  ⟨"2016 Winter", "2016 Winter Quarter", none⟩,
  ⟨"2015 Fall", "2015 Fall Quarter", none⟩,
  ⟨"2015 Summer2", "2015 Summer Session 2", none⟩,
  ⟨"2015 Summer10wk", "2015 10-wk Summer", none⟩,
  ⟨"2015 Summer1", "2015 Summer Session 1", none⟩,
  ⟨"2015 Spring", "2015 Spring Quarter", none⟩,
  ⟨"2015 Winter", "2015 Winter Quarter", none⟩,
  ⟨"2014 Fall", "2014 Fall Quarter", none⟩]

/-- Derived enumeration from `terms.ts`: every `shortName` of the table,
in table order, followed by the two sentinel labels. -/
def termNamesArray : List String :=
  termsArray.map Term.shortName ++ ["Multiple Terms", "Any Term"]

/-- Modelled from the spec: the runtime validator
`TermNamesSchema = type(enumerate(termNamesArray))`. The `enumerate` helper
(from `packages/peterportal-schemas`) and the `arktype` `type` combinator are
not part of this excerpt; per the spec the resulting schema accepts exactly
the strings of the enumeration and "fails with ValidationError when the
candidate value is not a recognized term name or sentinel". -/
def TermNamesSchema (s : String) : Except String String :=
  if s ∈ termNamesArray then Except.ok s
  else Except.error "ValidationError: not a recognized term name or sentinel"

/-- Convenience: whether validation of `s` by `TermNamesSchema` succeeds. -/
def termNameValidates (s : String) : Bool := (TermNamesSchema s).toBool

/-- Numeric value of a decimal digit character. -/
def digitVal (c : Char) : Nat := c.toNat - 48

/-- Year component of a `shortName` such as "2023 Fall": its leading four
digits, read as a number. -/
def yearOf (s : String) : Nat :=
  match s.toList with
  | c1 :: c2 :: c3 :: c4 :: _ =>
    ((digitVal c1 * 10 + digitVal c2) * 10 + digitVal c3) * 10 + digitVal c4
  | _ => 0

/-- Session component of a `shortName`: everything after "YYYY ". -/
def sessionOf (s : String) : String := String.mk (s.toList.drop 5)

/-- Rank of a session within an academic year, newest first:
Fall, Summer2, Summer10wk, Summer1, Spring, Winter. -/
def sessionRank (s : String) : Nat :=
  if sessionOf s = "Fall" then 0
  else if sessionOf s = "Summer2" then 1
  else if sessionOf s = "Summer10wk" then 2
  else if sessionOf s = "Summer1" then 3
  else if sessionOf s = "Spring" then 4
  else if sessionOf s = "Winter" then 5
  else 6

/-- Reverse chronological precedence on term short names: strictly newer year,
or same year with a strictly newer session. -/
def newerTerm (a b : String) : Bool :=
  decide (yearOf b < yearOf a) ||
    (yearOf a == yearOf b && decide (sessionRank a < sessionRank b))

/-- Store actions dispatched by the toolbar (imported from
`$actions/AppStoreActions` and the `toggleDisplayFinalsSchedule` prop). -/
inductive StoreAction where
  | changeCurrentSchedule (index : Nat)
  | clearSchedules
  | undoDelete
  | toggleDisplayFinalsSchedule
deriving DecidableEq, Repr

/-- Observable side effect of a toolbar handler: an analytics report or a
store mutation, in the order the handler performs them. -/
inductive Effect where
  | logAnalytics (category action : String)
  | dispatch (a : StoreAction)
deriving DecidableEq, Repr

/-- Whether an effect is an analytics report. -/
def Effect.isAnalytics : Effect → Bool
  | .logAnalytics _ _ => true
  | .dispatch _ => false

/-- Whether an effect is a store mutation. -/
def Effect.isDispatch : Effect → Bool
  | .logAnalytics _ _ => false
  | .dispatch _ => true

/-- Run a trace of effects over a store state `s`: dispatches are interpreted
by `interp`, analytics reports do not touch the store. -/
def applyEffects {S : Type} (interp : StoreAction → S → S) (s : S) : List Effect → S
  | [] => s
  | Effect.dispatch a :: rest => applyEffects interp (interp a s) rest
  | Effect.logAnalytics _ _ :: rest => applyEffects interp s rest

/-- In a trace, the first analytics report comes strictly before the first
store mutation. -/
def analyticsFirst (t : List Effect) : Bool :=
  decide (t.findIdx Effect.isAnalytics < t.findIdx Effect.isDispatch)

/-- Effect trace of `handleScheduleChange(index)`: log the CHANGE_SCHEDULE
analytics event, then dispatch `changeCurrentSchedule(index)`. -/
def handleScheduleChange (index : Nat) : List Effect :=
  [Effect.logAnalytics "Calendar" "CHANGE_SCHEDULE",
   Effect.dispatch (StoreAction.changeCurrentSchedule index)]

/-- Effect trace of the closure returned by `createScheduleSelector(index)`:
it just calls `handleScheduleChange(index)`. -/
def createScheduleSelector (index : Nat) : Unit → List Effect :=
  fun _ => handleScheduleChange index

/-- Effect trace of `handleUndo`: log the UNDO analytics event, then
dispatch `undoDelete(null)`. -/
def handleUndo : List Effect :=
  [Effect.logAnalytics "Calendar" "UNDO", Effect.dispatch StoreAction.undoDelete]

/-- Effect trace of `handleClearSchedule`, given the answer of the
`window.confirm` prompt: when confirmed, `clearSchedules()` is called and then
the CLEAR_SCHEDULE analytics event is logged; when declined, nothing runs. -/
def handleClearSchedule (confirmed : Bool) : List Effect :=
  if confirmed then
    [Effect.dispatch StoreAction.clearSchedules,
     Effect.logAnalytics "Calendar" "CLEAR_SCHEDULE"]
  else []

/-- Effect trace of `handleToggleFinals` in `CalendarPaneToolbar`: log the
DISPLAY_FINALS analytics event, then call `toggleDisplayFinalsSchedule`. -/
def handleToggleFinals : List Effect :=
  [Effect.logAnalytics "Calendar" "DISPLAY_FINALS",
   Effect.dispatch StoreAction.toggleDisplayFinalsSchedule]

/-- Local state of `SelectSchedulePopover` relevant to opening and closing:
the popover anchor element (`anchorEl`), an element id when set. -/
structure PopoverState where
  anchorEl : Option Nat
deriving DecidableEq, Repr

/-- The `handleClose` callback of the popover: clears the anchor. -/
def popoverHandleClose (st : PopoverState) : PopoverState :=
  { st with anchorEl := none }

/-- Clicking the schedule entry `index` in the popover list: its `onClick`
is the closure `createScheduleSelector(index)`, which dispatches the schedule
change but does not touch the popover state. -/
def scheduleEntryClick (index : Nat) (st : PopoverState) :
    PopoverState × List Effect :=
  (st, createScheduleSelector index ())

/-- The two event callbacks `SelectSchedulePopover` registers on the store. -/
inductive StoreEventHandler where
  | handleScheduleIndexChange
  | handleScheduleNamesChange
deriving DecidableEq, Repr

/-- One registration in the store's listener registry. -/
abbrev Listener := String × StoreEventHandler

/-- Modelled from the spec: `AppStore.on(event, handler)` of the external
store (`$stores/AppStore`, not part of this excerpt) registers the handler
for the named change event, adding it to the listener registry. -/
def storeOn (l : List Listener) (event : String) (h : StoreEventHandler) :
    List Listener :=
  l ++ [(event, h)]

/-- Modelled from the spec: `AppStore.off(event, handler)` of the external
store removes one registration of the handler for the named change event. -/
def storeOff (l : List Listener) (event : String) (h : StoreEventHandler) :
    List Listener :=
  l.erase (event, h)

/-- The `useEffect` body of `SelectSchedulePopover` on mount: subscribe the
two callbacks to the five named store-change events, in source order. -/
def selectSchedulePopoverMount (l : List Listener) : List Listener :=
  storeOn (storeOn (storeOn (storeOn (storeOn l
    "addedCoursesChange" StoreEventHandler.handleScheduleIndexChange)
    "customEventsChange" StoreEventHandler.handleScheduleIndexChange)
    "colorChange" StoreEventHandler.handleScheduleIndexChange)
    "currentScheduleIndexChange" StoreEventHandler.handleScheduleIndexChange)
    "scheduleNamesChange" StoreEventHandler.handleScheduleNamesChange

/-- The cleanup closure returned by that `useEffect` on teardown: unsubscribe
the same callbacks from the same five events, in source order. -/
def selectSchedulePopoverTeardown (l : List Listener) : List Listener :=
  storeOff (storeOff (storeOff (storeOff (storeOff l
    "addedCoursesChange" StoreEventHandler.handleScheduleIndexChange)
    "customEventsChange" StoreEventHandler.handleScheduleIndexChange)
    "colorChange" StoreEventHandler.handleScheduleIndexChange)
    "currentScheduleIndexChange" StoreEventHandler.handleScheduleIndexChange)
    "scheduleNamesChange" StoreEventHandler.handleScheduleNamesChange

/-- The `disabled` prop of the `IconButton` in `DeleteScheduleButton`:
`AppStore.schedule.getNumberOfSchedules() === 1`. -/
def deleteScheduleButtonDisabled (numberOfSchedules : Nat) : Bool :=
  numberOfSchedules == 1

/-- Inner loop of the `currentScheduleName` memo: scan one term's
`(index, scheduleName)` pairs and return the name at the first pair whose
index equals the current schedule index. -/
def findScheduleName (pairs : List (Nat × String)) (idx : Nat) : Option String :=
  match pairs with
  | [] => none
  | (index, scheduleName) :: rest =>
    if index = idx then some scheduleName else findScheduleName rest idx

/-- Outer loop of the `currentScheduleName` memo: scan the map's values in
order; fall back to "N/A" when no pair matches. -/
def currentScheduleNameLoop (values : List (List (Nat × String))) (idx : Nat) :
    String :=
  match values with
  | [] => "N/A"
  | pairs :: rest =>
    match findScheduleName pairs idx with
    | some name => name
    | none => currentScheduleNameLoop rest idx

/-- The `currentScheduleName` memo of `SelectSchedulePopover`: the term→
schedule map is scanned in insertion order (modelled as an association list),
looking for the current schedule index among each term's pairs. -/
def currentScheduleName (scheduleMap : List (String × List (Nat × String)))
    (idx : Nat) : String :=
  currentScheduleNameLoop (scheduleMap.map Prod.snd) idx

/-- The five (event, handler) registrations performed by the popover, in
source order. -/
def popoverSubscriptions : List Listener :=
  [("addedCoursesChange", StoreEventHandler.handleScheduleIndexChange),
   ("customEventsChange", StoreEventHandler.handleScheduleIndexChange),
   ("colorChange", StoreEventHandler.handleScheduleIndexChange),
   ("currentScheduleIndexChange", StoreEventHandler.handleScheduleIndexChange),
   ("scheduleNamesChange", StoreEventHandler.handleScheduleNamesChange)]

/-- C1: term-name validation accepts a string iff it is the `shortName` of
some entry of the compiled term table or one of the two sentinel labels;
every `shortName` from the table validates, and the unrelated string
"Not A Term" fails validation. -/
theorem termNamesSchema_accepts_iff :
    (∀ s : String, termNameValidates s = true ↔
      (∃ t ∈ termsArray, t.shortName = s) ∨ s = "Multiple Terms" ∨ s = "Any Term") ∧
    termsArray.all (fun t => termNameValidates t.shortName) = true ∧
    termNameValidates "Not A Term" = false := by
  refine ⟨fun s => ?_, by decide, by decide⟩
  have h : termNameValidates s = true ↔ s ∈ termNamesArray := by
    unfold termNameValidates TermNamesSchema
    by_cases hm : s ∈ termNamesArray
    · simp [hm, Except.toBool]
    · simp [hm, Except.toBool]
  rw [h]
  simp [termNamesArray, List.mem_map]

/-- C2: as a set, `termNamesArray` is exactly the set of all `shortName`
values of the term table together with the two sentinel strings, both of
which are present. -/
theorem termNamesArray_as_set :
    (∀ s : String, s ∈ termNamesArray ↔
      (∃ t ∈ termsArray, t.shortName = s) ∨ s = "Multiple Terms" ∨ s = "Any Term") ∧
    "Multiple Terms" ∈ termNamesArray ∧ "Any Term" ∈ termNamesArray := by
  refine ⟨fun s => ?_, by decide, by decide⟩
  simp [termNamesArray, List.mem_map]

/-- C3: any two distinct entries of the compiled term table have different
`shortName` values. -/
theorem termsArray_shortName_unique :
    List.Pairwise (fun a b => a.shortName ≠ b.shortName) termsArray := by decide

/-- C10: the term table is listed in reverse chronological order — every
entry strictly precedes every later entry (newer year, or same year and
newer session in the order Fall, Summer2, Summer10wk, Summer1, Spring,
Winter), from "2023 Fall" down to "2014 Fall" — and the derived enumeration
lists the short names in that same table order. -/
theorem termsArray_reverse_chronological :
    List.Pairwise (fun a b => newerTerm a b = true) (termsArray.map Term.shortName) ∧
    (termsArray.map Term.shortName).head? = some "2023 Fall" ∧
    (termsArray.map Term.shortName).getLast? = some "2014 Fall" ∧
    termNamesArray = termsArray.map Term.shortName ++ ["Multiple Terms", "Any Term"] :=
  ⟨by decide, by decide, by decide, rfl⟩

/-- C4: the delete-schedule button is disabled exactly at schedule count one,
and enabled at every count greater than one. -/
theorem deleteSchedule_disabled_iff_one :
    deleteScheduleButtonDisabled 1 = true ∧
    ∀ n : Nat, 1 < n → deleteScheduleButtonDisabled n = false := by
  refine ⟨rfl, fun n h => ?_⟩
  simp only [deleteScheduleButtonDisabled, beq_eq_false_iff_ne, ne_eq]
  omega

/-- Witness for C4 at the concrete schedule counts 1 and 2. -/
theorem deleteSchedule_disabled_iff_one_witness :
    deleteScheduleButtonDisabled 1 = true ∧ deleteScheduleButtonDisabled 2 = false :=
  ⟨deleteSchedule_disabled_iff_one.1, deleteSchedule_disabled_iff_one.2 2 (by decide)⟩

/-- C5: when the clear-schedule confirmation is declined, the handler
performs no effect at all — its trace is empty, `clearSchedules` is not
dispatched, and any store state is left unchanged under any interpretation
of the actions. -/
theorem handleClearSchedule_decline_noop :
    handleClearSchedule false = [] ∧
    Effect.dispatch StoreAction.clearSchedules ∉ handleClearSchedule false ∧
    ∀ (S : Type) (interp : StoreAction → S → S) (s : S),
      applyEffects interp s (handleClearSchedule false) = s :=
  ⟨rfl, by simp [handleClearSchedule], fun S interp s => rfl⟩

/-- Counterexample to C6: for the confirmed clear-schedule action, the store
mutation (`clearSchedules`) comes first in the trace and the analytics event
second, so the analytics report does not precede the mutation. -/
theorem clearSchedule_mutation_first_counterexample :
    handleClearSchedule true =
      [Effect.dispatch StoreAction.clearSchedules,
       Effect.logAnalytics "Calendar" "CLEAR_SCHEDULE"] ∧
    analyticsFirst (handleClearSchedule true) = false := by decide

/-- C6 (amended): undo and toggle-finals report their analytics event
before the store mutation, while the confirmed clear-schedule action
performs the store mutation first and reports its analytics event second;
a declined clear is skipped entirely. -/
theorem toolbar_effect_order :
    analyticsFirst handleUndo = true ∧
    analyticsFirst handleToggleFinals = true ∧
    handleClearSchedule true =
      [Effect.dispatch StoreAction.clearSchedules,
       Effect.logAnalytics "Calendar" "CLEAR_SCHEDULE"] ∧
    handleClearSchedule false = [] := by decide

/-- Counterexample to C7: clicking a schedule entry while the popover is
anchored dispatches the change action but leaves the anchor set — the
popover is not closed by the click. -/
theorem scheduleEntryClick_leaves_popover_open_counterexample :
    (scheduleEntryClick 0 ⟨some 1⟩).2 =
      [Effect.logAnalytics "Calendar" "CHANGE_SCHEDULE",
       Effect.dispatch (StoreAction.changeCurrentSchedule 0)] ∧
    (scheduleEntryClick 0 ⟨some 1⟩).1.anchorEl ≠ none := by decide

/-- C7 (amended): clicking the schedule entry at `index` logs the
CHANGE_SCHEDULE analytics event and dispatches `changeCurrentSchedule` with
that index, but leaves the popover state (in particular its anchor)
untouched; only the popover's own close callback clears the anchor. -/
theorem scheduleEntryClick_dispatch_no_close :
    ∀ (index : Nat) (st : PopoverState),
      (scheduleEntryClick index st).2 =
        [Effect.logAnalytics "Calendar" "CHANGE_SCHEDULE",
         Effect.dispatch (StoreAction.changeCurrentSchedule index)] ∧
      (scheduleEntryClick index st).1 = st :=
  fun _ _ => ⟨rfl, rfl⟩

/-- Permuting a list and then erasing the distinguished element of a middle
cons yields the list with that occurrence dropped. -/
theorem perm_cons_erase_of_mem {α : Type} [BEq α] [LawfulBEq α] {a : α} {l : List α}
    (h : a ∈ l) : List.Perm l (a :: l.erase a) := by
  obtain ⟨l₁, l₂, _, e₁, e₂⟩ := List.exists_erase_eq h
  rw [e₂, e₁]
  exact List.perm_middle

/-- Erasure respects permutation (stated for a lawful `BEq`). -/
theorem perm_erase_of_perm {α : Type} [BEq α] [LawfulBEq α] (a : α) {l₁ l₂ : List α}
    (p : List.Perm l₁ l₂) : List.Perm (l₁.erase a) (l₂.erase a) := by
  by_cases h₁ : a ∈ l₁
  · have h₂ : a ∈ l₂ := p.subset h₁
    exact List.Perm.cons_inv
      ((perm_cons_erase_of_mem h₁).symm.trans (p.trans (perm_cons_erase_of_mem h₂)))
  · have h₂ : a ∉ l₂ := fun hm => h₁ (p.mem_iff.2 hm)
    rw [List.erase_of_not_mem h₁, List.erase_of_not_mem h₂]
    exact p

/-- Erasing the head of the appended segment undoes that one insertion, up
to permutation. -/
theorem erase_append_cons_perm {α : Type} [BEq α] [LawfulBEq α] (l m : List α) (a : α) :
    List.Perm ((l ++ a :: m).erase a) (l ++ m) := by
  by_cases h : a ∈ l
  · rw [List.erase_append_left _ h]
    have h1 : List.Perm (l.erase a ++ a :: m) (a :: (l.erase a ++ m)) := List.perm_middle
    have h3 : List.Perm (l ++ m) (a :: (l.erase a ++ m)) :=
      (perm_cons_erase_of_mem h).append_right m
    exact h1.trans h3.symm
  · rw [List.erase_append_right _ h, List.erase_cons_head]

/-- Folding erasure over a fixed list respects permutation of the start. -/
theorem perm_foldl_erase {α : Type} [BEq α] [LawfulBEq α] {l₁ l₂ : List α}
    (h : List.Perm l₁ l₂) :
    ∀ ps : List α, List.Perm (ps.foldl List.erase l₁) (ps.foldl List.erase l₂)
  | [] => h
  | p :: ps => by
    simp only [List.foldl_cons]
    exact perm_foldl_erase (perm_erase_of_perm p h) ps

/-- Appending a batch of elements and then erasing each of them again
restores the original list up to permutation. -/
theorem foldl_erase_append_perm {α : Type} [BEq α] [LawfulBEq α] :
    ∀ (ps l : List α), List.Perm (ps.foldl List.erase (l ++ ps)) l
  | [], l => by simp
  | p :: ps, l => by
    simp only [List.foldl_cons]
    have h1 : List.Perm ((l ++ p :: ps).erase p) (l ++ ps) := erase_append_cons_perm l ps p
    exact (perm_foldl_erase h1 ps).trans (foldl_erase_append_perm ps l)

/-- C8: mounting the popover registers exactly the five named store-change
events with their handlers, and tearing it down removes the same five
registrations, so that for every prior listener registry the registry after
mount followed by teardown is a permutation of the original — no leaked
callbacks. -/
theorem popover_listener_roundtrip :
    selectSchedulePopoverMount [] = popoverSubscriptions ∧
    ∀ l : List Listener,
      List.Perm (selectSchedulePopoverTeardown (selectSchedulePopoverMount l)) l := by
  refine ⟨rfl, fun l => ?_⟩
  have hmount : selectSchedulePopoverMount l = l ++ popoverSubscriptions := by
    simp [selectSchedulePopoverMount, storeOn, popoverSubscriptions]
  have hteardown : ∀ x : List Listener,
      selectSchedulePopoverTeardown x = popoverSubscriptions.foldl List.erase x :=
    fun x => rfl
  rw [hmount, hteardown]
  exact foldl_erase_append_perm popoverSubscriptions l

/-- The inner scan of one term's pairs agrees with `find?` on the pair list. -/
theorem findScheduleName_eq_find? (pairs : List (Nat × String)) (idx : Nat) :
    findScheduleName pairs idx = (pairs.find? (fun p => p.1 == idx)).map Prod.snd := by
  induction pairs with
  | nil => rfl
  | cons p rest ih =>
    obtain ⟨index, scheduleName⟩ := p
    by_cases h : index = idx
    · rw [List.find?_cons_of_pos _ (by simp [h])]
      simp [findScheduleName, h]
    · rw [List.find?_cons_of_neg _ (by simp [h])]
      simp [findScheduleName, h, ih]

/-- The nested scan over the map's values agrees with `find?` on the in-order
flattening of the values, with "N/A" as fallback. -/
theorem currentScheduleNameLoop_eq (values : List (List (Nat × String))) (idx : Nat) :
    currentScheduleNameLoop values idx =
      ((values.flatten.find? (fun p => p.1 == idx)).map Prod.snd).getD "N/A" := by
  induction values with
  | nil => rfl
  | cons pairs rest ih =>
    simp only [currentScheduleNameLoop, List.flatten_cons, List.find?_append,
      findScheduleName_eq_find?]
    cases hf : pairs.find? (fun p => p.1 == idx) with
    | none => simp [hf, ih]
    | some p => simp [hf]

/-- C9: when no (index, name) pair of any term's schedule list carries the
current schedule index, the displayed name is the fallback "N/A"; otherwise
it is the name of the first matching pair in map iteration order. -/
theorem currentScheduleName_first_match :
    ∀ (m : List (String × List (Nat × String))) (idx : Nat),
      ((m.map Prod.snd).flatten.find? (fun p => p.1 == idx) = none →
        currentScheduleName m idx = "N/A") ∧
      (∀ i n, (m.map Prod.snd).flatten.find? (fun p => p.1 == idx) = some (i, n) →
        currentScheduleName m idx = n) := by
  intro m idx
  constructor
  · intro h
    simp [currentScheduleName, currentScheduleNameLoop_eq, h]
  · intro i n h
    simp [currentScheduleName, currentScheduleNameLoop_eq, h]

/-- Witness for C9 on a concrete two-schedule map: index 1 resolves to the
paired name, index 5 falls back to "N/A". -/
theorem currentScheduleName_first_match_witness :
    currentScheduleName [("2023 Fall", [(0, "Schedule A"), (1, "Schedule B")])] 1 = "Schedule B" ∧
    currentScheduleName [("2023 Fall", [(0, "Schedule A"), (1, "Schedule B")])] 5 = "N/A" :=
  ⟨(currentScheduleName_first_match [("2023 Fall", [(0, "Schedule A"), (1, "Schedule B")])] 1).2
      1 "Schedule B" (by decide),
   (currentScheduleName_first_match [("2023 Fall", [(0, "Schedule A"), (1, "Schedule B")])] 5).1
      (by decide)⟩
